import Mathlib

/-!
Verification of the FaceShark scoring-and-decision core against its
natural-language specification.

The Python source is shallowly embedded in Lean 4:
* floats are modelled as rationals (`ℚ`); the formulas involved are exact
  rational arithmetic, so this is the idealised real-number reading the
  spec itself uses;
* Python dicts with a fixed key set become structures; dict lookups with
  string keys that the source performs (`axes.get(k, 0)`) are modelled by
  an explicit string-keyed accessor;
* the geometry step that genuinely produces irrational values
  (`arccos`, `sqrt`) is modelled over `ℝ`, with IEEE-754 NaN/inf
  propagation of numpy made explicit as an inductive result type;
* Python tuple unpacking (`a, b, c = t`), which raises `ValueError`
  unless the tuple has exactly three elements, is modelled by a function
  into `Except`, and the orchestrator `analyze_image` returns
  `Except String AnalysisResult` where `.error` marks an uncaught
  exception escaping the core.
-/

namespace FaceShark

/-! ## meme_classifier.py — `MemeClassifier` -/

/-- The five axes (0..100): sharpness, lighting, pose, jawline, contrast.
`classify_rule_based` first normalises its input dict to exactly these
five keys (`{k: float(axes.get(k, 50.0)) for k in [...]}`); this
structure is that normalised form. -/
structure Axes where
  sharpness : ℚ
  lighting : ℚ
  pose : ℚ
  jawline : ℚ
  contrast : ℚ
  deriving DecidableEq, Repr

/-- String-keyed lookup on the normalised axes dict, default 0, as in
`axes.get(k, 0)` (meme_classifier.py line 124). -/
def axGet (a : Axes) (k : String) : ℚ :=
  if k = "sharpness" then a.sharpness
  else if k = "lighting" then a.lighting
  else if k = "pose" then a.pose
  else if k = "jawline" then a.jawline
  else if k = "contrast" then a.contrast
  else 0

/-- Iteration order of the axes dict (insertion order in the source). -/
def axisKeys : List String := ["sharpness", "lighting", "pose", "jawline", "contrast"]

/-- `self.weights` (meme_classifier.py lines 19-21). -/
def weights : List (String × ℚ) :=
  [("sharpness", 0.30), ("lighting", 0.18), ("pose", 0.20), ("jawline", 0.22), ("contrast", 0.10)]

/-- `self.TH` tag thresholds (meme_classifier.py lines 22-25). -/
def TH (k : String) : ℚ :=
  if k = "blurry" then 45
  else if k = "very_blurry" then 30
  else if k = "dark" then 42
  else if k = "overexposed" then 88
  else if k = "bad_pose" then 55
  else if k = "weak_jaw" then 52
  else if k = "low_contrast" then 45
  else 0

/-- One penalty-loop iteration of `_composite` (meme_classifier.py
lines 41-52): per-axis penalties below 45 and below 30, with the running
total re-capped at `8.0 + 3.0*max(0, len(bad_axes)-1)` after each axis
as soon as at least one axis has been penalised. -/
def penaltyStep (a : Axes) (st : ℚ × List String) (k : String) : ℚ × List String :=
  let v := axGet a k
  let st₁ :=
    if v < 45 then
      (st.1 + (45 - v) * (if k = "lighting" ∨ k = "contrast" then 0.06 else 0.09), st.2 ++ [k])
    else st
  let p₂ :=
    if v < 30 then
      st₁.1 + (30 - v) * (if k = "lighting" ∨ k = "contrast" then 0.12 else 0.18)
    else st₁.1
  if st₁.2 ≠ [] then
    (min p₂ (8 + 3 * max 0 ((st₁.2.length : ℚ) - 1)), st₁.2)
  else (p₂, st₁.2)

/-- The weighted-sum loop of `_composite` (meme_classifier.py
lines 35-38): each axis clamped to [0,100] and weighted. -/
def weightedScore (a : Axes) : ℚ :=
  weights.foldl (fun s kw => s + kw.2 * max 0 (min 100 (axGet a kw.1))) 0

/-- The penalty loop of `_composite` (meme_classifier.py lines 39-52). -/
def penaltyTotal (a : Axes) : ℚ :=
  (axisKeys.foldl (penaltyStep a) (0, [])).1

/-- `MemeClassifier._composite` (meme_classifier.py lines 34-53):
weighted sum over axes clamped to [0,100], minus the penalty total,
the difference clamped to [0,100]. -/
def composite (a : Axes) : ℚ :=
  max 0 (min 100 (weightedScore a - penaltyTotal a))

/-- `MemeClassifier._tags` (meme_classifier.py lines 55-67). -/
def tagsOf (a : Axes) : List String :=
  (if a.sharpness < TH "very_blurry" then ["very_blurry"]
   else if a.sharpness < TH "blurry" then ["blurry"] else []) ++
  (if a.lighting < TH "dark" then ["dark"] else []) ++
  (if a.lighting > TH "overexposed" then ["overexposed"] else []) ++
  (if a.pose < TH "bad_pose" then ["bad_pose"] else []) ++
  (if a.jawline < TH "weak_jaw" then ["weak_jaw"] else []) ++
  (if a.contrast < TH "low_contrast" then ["low_contrast"] else [])

/-- `MemeClassifier._reasons` (meme_classifier.py lines 69-83):
positive reasons then negative reasons. -/
def reasonsOf (a : Axes) : List String :=
  ((if a.sharpness ≥ 80 then ["very high sharpness"] else []) ++
   (if a.lighting ≥ 72 then ["good lighting"] else []) ++
   (if a.pose ≥ 80 then ["good angle/pose"] else []) ++
   (if a.jawline ≥ 76 then ["strong jawline"] else []) ++
   (if a.contrast ≥ 70 then ["sufficient contrast"] else [])) ++
  ((if a.sharpness < 45 then ["low sharpness"] else []) ++
   (if a.lighting < 45 then ["insufficient lighting"] else []) ++
   (if a.pose < 55 then ["suboptimal pose/angle"] else []) ++
   (if a.jawline < 52 then ["weak jawline"] else []) ++
   (if a.contrast < 45 then ["low contrast"] else []))

/-- One tier of `self.TIERS` (meme_classifier.py lines 26-31): composite
floor, per-axis key floors, and a `min_axis` floor defaulting to 0
(`rule.get('min_axis', 0)`). The dict also holds an `average` entry
(`{'min': 55}`) that the tier loop never consults. -/
structure Tier where
  name : String
  tmin : ℚ
  keys : List (String × ℚ)
  min_axis : ℚ

/-- The tiers the decision loop iterates, in loop order
`['god', 'mogged', 'sigma']` (meme_classifier.py line 121). -/
def TIERS : List Tier :=
  [⟨"god", 87, [("sharpness", 80), ("jawline", 75), ("pose", 75)], 0⟩,
   ⟨"mogged", 78, [("sharpness", 72), ("jawline", 70), ("pose", 68)], 0⟩,
   ⟨"sigma", 65, [("sharpness", 60), ("jawline", 58)], 50⟩]

/-- Per-tier confidence base and cap (meme_classifier.py line 128). -/
def baseCap (t : String) : ℚ × ℚ :=
  if t = "god" then (0.75, 0.22)
  else if t = "mogged" then (0.67, 0.25)
  else (0.60, 0.27)

/-- The tier loop of `classify_rule_based` (meme_classifier.py
lines 121-130): first tier with `quality ≥ min`, all key floors met and
`min_axis` met wins, with confidence
`min(base + min(cap, max(0, quality-min)/15), 0.98)`. -/
def findTier (a : Axes) (quality min_axis : ℚ) : List Tier → Option (String × ℚ)
  | [] => none
  | t :: rest =>
    if t.tmin ≤ quality ∧
        (t.keys.all fun kv => decide (kv.2 ≤ axGet a kv.1)) = true ∧
        t.min_axis ≤ min_axis then
      let bc := baseCap t.name
      let margin := max 0 (quality - t.tmin)
      some (t.name, min (bc.1 + min bc.2 (margin / 15)) 0.98)
    else findTier a quality min_axis rest

/-- Return value of `classify_rule_based`: the 5-tuple
`(label, confidence, reasons, tags, quality)`. -/
structure ClassifyResult where
  label : String
  conf : ℚ
  reasons : List String
  tags : List String
  quality : ℚ
  deriving DecidableEq, Repr

/-- The local `min_axis = min(axes.values())` of `classify_rule_based`
(meme_classifier.py line 93). -/
def minAxis (a : Axes) : ℚ :=
  min a.sharpness (min a.lighting (min a.pose (min a.jawline a.contrast)))

/-- The local `very_bad_axes = sum(v < 30 for v in axes.values())` of
`classify_rule_based` (meme_classifier.py line 94). -/
def veryBadAxes (a : Axes) : ℕ :=
  [a.sharpness, a.lighting, a.pose, a.jawline, a.contrast].countP (fun v => decide (v < 30))

/-- `MemeClassifier.classify_rule_based` (meme_classifier.py
lines 88-134), on the normalised five axes; the locals `tags`,
`reasons`, `quality`, `min_axis`, `very_bad_axes` of the source are the
pure values `tagsOf a`, `reasonsOf a`, `composite a`, `minAxis a`,
`veryBadAxes a`. -/
def classify_rule_based (a : Axes) : ClassifyResult :=
  -- HERO-FACE OVERRIDE
  if 78 ≤ a.sharpness ∧ 54 ≤ a.jawline ∧ 60 ≤ a.pose then
    if 75 ≤ composite a ∨ (75 ≤ a.sharpness ∧ 72 ≤ a.jawline) then
      ⟨"mogged", min (0.80 + min 0.20 ((composite a - 80) / 20)) 0.96,
        reasonsOf a, tagsOf a, composite a⟩
    else
      ⟨"sigma", min (0.70 + min 0.20 (max 0 (composite a - 70) / 20)) 0.90,
        reasonsOf a, tagsOf a, composite a⟩
  else if 2 ≤ veryBadAxes a ∨
      (composite a < 45 ∧ ("very_blurry" ∈ tagsOf a ∨ "dark" ∈ tagsOf a)) then
    ⟨"trash", min (0.68 + max 0 (55 - composite a) / 55 * 0.25) 0.96,
      reasonsOf a, tagsOf a, composite a⟩
  else if composite a < 50 then
    ⟨"meh", 0.60, reasonsOf a, tagsOf a, composite a⟩
  else if composite a < 62 ∨ minAxis a < 48 then
    ⟨"average", 0.55, reasonsOf a, tagsOf a, composite a⟩
  else
    match findTier a (composite a) (minAxis a) TIERS with
    | some nc => ⟨nc.1, nc.2, reasonsOf a, tagsOf a, composite a⟩
    | none =>
      if 62 ≤ composite a ∧ 55 ≤ minAxis a then
        ⟨"average", 0.54, reasonsOf a, tagsOf a, composite a⟩
      else ⟨"meh", 0.56, reasonsOf a, tagsOf a, composite a⟩

/-- Modelled from the spec, for the refinement comparison of claim C6
only: the alternative single-final-cap formulation of the composite
(same weighted sum and per-axis penalties, but the cap
`8.0 + 3.0*(penalized_count - 1)` applied once to the final penalty
total instead of being re-applied after each axis). -/
def penaltyStepNoCap (a : Axes) (st : ℚ × List String) (k : String) : ℚ × List String :=
  let v := axGet a k
  let st₁ :=
    if v < 45 then
      (st.1 + (45 - v) * (if k = "lighting" ∨ k = "contrast" then 0.06 else 0.09), st.2 ++ [k])
    else st
  if v < 30 then
    (st₁.1 + (30 - v) * (if k = "lighting" ∨ k = "contrast" then 0.12 else 0.18), st₁.2)
  else st₁

/-- Modelled from the spec, for the refinement comparison of claim C6
only: the uncapped penalty state after all five axes. -/
def penaltyStateNoCap (a : Axes) : ℚ × List String :=
  axisKeys.foldl (penaltyStepNoCap a) (0, [])

/-- Modelled from the spec, for the refinement comparison of claim C6
only: composite with the penalty cap applied once at the end. -/
def compositeSingleFinalCap (a : Axes) : ℚ :=
  max 0 (min 100 (weightedScore a -
    (if (penaltyStateNoCap a).2 ≠ [] then
      min (penaltyStateNoCap a).1
        (8 + 3 * max 0 (((penaltyStateNoCap a).2.length : ℚ) - 1))
    else (penaltyStateNoCap a).1)))

/-! ## geometry_analysis.py — `GeometryAnalyzer` -/

/-- A 3D landmark point (x, y, z); the source only ever reads `[:2]`. -/
abbrev Pt3 : Type := ℚ × ℚ × ℚ

/-- MediaPipe mesh index `CHIN = 152`. -/
def CHIN : ℕ := 152
/-- MediaPipe mesh index `LEFT_JAW = 172`. -/
def LEFT_JAW : ℕ := 172
/-- MediaPipe mesh index `RIGHT_JAW = 397`. -/
def RIGHT_JAW : ℕ := 397

/-- Dot product of the 2D (`[:2]`) parts. -/
def dot2 (v w : ℚ × ℚ) : ℚ := v.1 * w.1 + v.2 * w.2

/-- Squared Euclidean norm of a 2D vector; `np.linalg.norm v = √(normSq v)`. -/
def normSq (v : ℚ × ℚ) : ℚ := v.1 ^ 2 + v.2 ^ 2

/-- Result of a numpy float computation that may be NaN. -/
inductive JawResult where
  | nan : JawResult
  | val : ℝ → JawResult

/-- The tail of `calculate_jaw_angle` (geometry_analysis.py lines 95-99)
under numpy semantics:
`cos = dot/(‖v1‖·‖v2‖)` where the denominator is passed here as its
square `den2 = normSq v1 * normSq v2` (so the denominator is
`√den2`, and it is zero exactly when `den2 = 0`);
numpy yields NaN for `0/0` and `±inf` for `x/0` with `x ≠ 0`;
`np.clip(·, -1, 1)` maps `±inf` to `±1` and propagates NaN;
`np.arccos` propagates NaN; the result is converted to degrees. -/
noncomputable def divClipArccosDeg (num den2 : ℚ) : JawResult :=
  if den2 = 0 then
    if num = 0 then .nan
    else .val (Real.arccos (if 0 < num then 1 else -1) * 180 / Real.pi)
  else
    .val (Real.arccos (max (-1) (min 1 ((num : ℝ) / Real.sqrt (den2 : ℝ)))) * 180 / Real.pi)

/-- The chin-to-left-jaw vector `vec1 = left_jaw[:2] - chin[:2]`. -/
def jawVec1 (lmk : List Pt3) : ℚ × ℚ :=
  let lj := lmk.getD LEFT_JAW (0, 0, 0)
  let ch := lmk.getD CHIN (0, 0, 0)
  (lj.1 - ch.1, lj.2.1 - ch.2.1)

/-- The chin-to-right-jaw vector `vec2 = right_jaw[:2] - chin[:2]`. -/
def jawVec2 (lmk : List Pt3) : ℚ × ℚ :=
  let rj := lmk.getD RIGHT_JAW (0, 0, 0)
  let ch := lmk.getD CHIN (0, 0, 0)
  (rj.1 - ch.1, rj.2.1 - ch.2.1)

/-- `GeometryAnalyzer.calculate_jaw_angle` (geometry_analysis.py
lines 82-99): returns 90.0 for a short landmark list, else
`arccos(clip(dot/(‖vec1‖·‖vec2‖), -1, 1)) * 180/π` with numpy
NaN propagation made explicit. -/
noncomputable def calculate_jaw_angle (lmk : List Pt3) : JawResult :=
  if lmk.length < 468 then .val 90
  else
    divClipArccosDeg (dot2 (jawVec1 lmk) (jawVec2 lmk))
      (normSq (jawVec1 lmk) * normSq (jawVec2 lmk))

/-- `FacePose` (geometry_analysis.py lines 7-12), rational-valued. -/
structure FacePoseQ where
  yaw : ℚ
  pitch : ℚ
  roll : ℚ

/-- `FaceProportions` (geometry_analysis.py lines 15-23), rational-valued. -/
structure FaceProportionsQ where
  jaw_angle : ℚ
  eye_distance : ℚ
  face_width : ℚ
  face_height : ℚ
  symmetry_score : ℚ
  cheekbone_prominence : ℚ

/-- `GeometryAnalyzer.calculate_pose_score` (geometry_analysis.py
lines 179-188). -/
def calculate_pose_score (p : FacePoseQ) : ℚ :=
  max 0 (100 - |p.yaw| * 2) * 0.4 + max 0 (100 - |p.pitch| * 2) * 0.4 +
    max 0 (100 - |p.roll| * 2) * 0.2

/-- `GeometryAnalyzer.calculate_jawline_score` (geometry_analysis.py
lines 190-199). -/
def calculate_jawline_score (jaw_angle : ℚ) (props : FaceProportionsQ) : ℚ :=
  max 0 (100 - |jaw_angle - 70| * 2) * 0.6 + props.symmetry_score * 0.4

/-! ## face_analyzer.py — `FaceAnalyzer` -/

/-- The `exposure` sub-dict of `QualityMetrics.calculate_exposure`
(quality_metrics.py lines 59-77). -/
structure Exposure where
  score : ℚ
  mean_brightness : ℚ
  overexposed_pct : ℚ
  underexposed_pct : ℚ
  exposure_diff : ℚ

/-- The dict of `QualityMetrics.get_all_metrics` (quality_metrics.py
lines 131-142). The diagnostic-only `sharpness_map` entry is never
consumed by scoring and is omitted. -/
structure Quality where
  sharpness_laplacian : ℚ
  sharpness_tenengrad : ℚ
  sharpness_fft : ℚ
  contrast_rms : ℚ
  exposure : Exposure
  noise : ℚ
  bokeh : ℚ

/-- `FaceLandmarks` (face_detection.py lines 9-15): pixel bbox
`(x, y, width, height)`, optional dense mesh, detector confidence.
The 5-point alignment landmarks are never read by the analysis core and
are omitted. -/
structure FaceLandmarks where
  face_bbox : ℤ × ℤ × ℤ × ℤ
  landmarks_468 : Option (List Pt3)
  confidence : ℚ

/-- `FaceAnalyzer._calculate_axes` (face_analyzer.py lines 125-168).
The `landmarks` parameter is kept from the source signature; the body
never reads it. -/
def calculate_axes (q : Quality) (pose : Option FacePoseQ)
    (proportions : Option FaceProportionsQ) (landmarks : FaceLandmarks) : Axes :=
  let sharpness_score :=
    min 100 (q.sharpness_laplacian / 1000 * 50 + q.sharpness_tenengrad / 100000 * 30 +
      q.sharpness_fft * 20)
  let lighting_score :=
    q.exposure.score * 0.7 +
      (100 - q.exposure.overexposed_pct - q.exposure.underexposed_pct) * 0.3
  let pose_score := match pose with
    | some p => calculate_pose_score p
    | none => 50
  let jawline_score := match proportions with
    | some pr => calculate_jawline_score pr.jaw_angle pr
    | none => 50
  let contrast_score := min 100 (q.contrast_rms * 2)
  ⟨sharpness_score, lighting_score, pose_score, jawline_score, contrast_score⟩

/-- `FaceAnalyzer._should_abstain` (face_analyzer.py lines 170-187);
`len(axes) = 5`. -/
def should_abstain (axes : Axes) (confidence : ℚ) (pose : Option FacePoseQ) : Bool :=
  if confidence < 0.3 then true
  else if pose.any (fun p => decide (45 < |p.yaw| ∨ 45 < |p.pitch|)) then true
  else if (axes.sharpness + axes.lighting + axes.pose + axes.jawline + axes.contrast) / 5 < 20
    then true
  else false

/-- A dynamically-typed Python value crossing the classifier-orchestrator
call boundary. -/
inductive PyObj where
  | pstr (s : String)
  | pnum (q : ℚ)
  | plist (l : List String)

/-- The value returned by `MemeClassifier.classify` as the Python 5-tuple
`(label, confidence, reasons, tags, quality)` (meme_classifier.py
lines 108, 111, 114, ...). -/
def classifyTuple (a : Axes) : List PyObj :=
  let r := classify_rule_based a
  [.pstr r.label, .pnum r.conf, .plist r.reasons, .plist r.tags, .pnum r.quality]

/-- Python tuple unpacking `label, confidence, reasons = t`
(face_analyzer.py line 103): succeeds only when `t` has exactly three
elements, otherwise raises `ValueError`. -/
def unpack3 (vals : List PyObj) : Except String (PyObj × PyObj × PyObj) :=
  match vals with
  | [a, b, c] => .ok (a, b, c)
  | _ => .error "ValueError: too many values to unpack (expected 3)"

def pyStr : PyObj → String
  | .pstr s => s
  | _ => ""

def pyNum : PyObj → ℚ
  | .pnum q => q
  | _ => 0

def pyList : PyObj → List String
  | .plist l => l
  | _ => []

/-- `AnalysisResult` (face_analyzer.py lines 13-25). The failure results
carry `axes={}`, modelled as `none`. -/
structure AnalysisResult where
  ok : Bool
  axes : Option Axes
  label : String
  confidence : ℚ
  reasons : List String
  abstain : Bool
  model_version : String
  pose : Option FacePoseQ
  proportions : Option FaceProportionsQ
  quality_metrics : Option Quality

/-- Default `model_version` of the deployed analyzer (api/main.py
line 29). -/
def MODEL_VERSION : String := "1.0.0"

/-- Emptiness of `image[max(0,y):y+h, max(0,x):x+w]` for an image of
`H` rows and `W` columns (face_analyzer.py lines 72-75): numpy clips
slice bounds to the array extent, and `size == 0` iff either sliced
dimension is empty. -/
def cropEmpty (H W : ℤ) (bbox : ℤ × ℤ × ℤ × ℤ) : Bool :=
  decide (min H (bbox.2.1 + bbox.2.2.2) ≤ max 0 bbox.2.1) ||
    decide (min W (bbox.1 + bbox.2.2.1) ≤ max 0 bbox.1)

/-- `FaceAnalyzer._build_reasons` (face_analyzer.py lines 189-212).
The Russian reason strings carry numeric interpolations
(`yaw≈{...}°` etc.) in the source; the numeric payload is elided here,
no claim inspects these strings. -/
def build_reasons (axes : Axes) (quality : Quality) (pose : Option FacePoseQ)
    (proportions : Option FaceProportionsQ) (base_reasons : List String) : List String :=
  let r := base_reasons
  let r := r ++ (match pose with
    | some p =>
      (if 15 < |p.yaw| then ["поворот головы в сторону"] else []) ++
        (if 15 < |p.pitch| then ["наклон головы"] else [])
    | none => [])
  let r := r ++ (if 10 < |quality.exposure.exposure_diff| then ["экспозиция"] else [])
  let r := r ++ (match proportions with
    | some pr => if pr.symmetry_score < 70 then ["низкая симметрия лица"] else []
    | none => [])
  r

/-- `FaceAnalyzer.analyze_image` (face_analyzer.py lines 55-123), from
the detector result onward. Detection itself and pixel-buffer metric
extraction are external to the claims settled here: the detector result
`det`, the image extent `H × W`, the quality metrics of the cropped face
region, and the pose/proportion values the geometry step would compute
from a present mesh (`gPose`/`gProps`, irrational trigonometry in the
source) are inputs, universally quantified in every theorem about this
function. `.error` marks an uncaught Python exception leaving the core. -/
def analyze_image (H W : ℤ) (metrics : Quality)
    (gPose : List Pt3 → FacePoseQ) (gProps : List Pt3 → FaceProportionsQ)
    (det : Option FaceLandmarks) : Except String AnalysisResult :=
  match det with
  | none =>
    .ok ⟨false, none, "meh", 0, ["лицо не обнаружено"], true, MODEL_VERSION, none, none, none⟩
  | some lm =>
    if cropEmpty H W lm.face_bbox then
      .ok ⟨false, none, "meh", 0, ["не удалось извлечь область лица"], true, MODEL_VERSION,
        none, none, none⟩
    else
      let pose := lm.landmarks_468.map gPose
      let proportions := lm.landmarks_468.map gProps
      let axes := calculate_axes metrics pose proportions lm
      let abstain := should_abstain axes lm.confidence pose
      -- `label, confidence, reasons = self.meme_classifier.classify(axes)`
      match unpack3 (classifyTuple axes) with
      | .error e => .error e
      | .ok lcr =>
        let full_reasons := build_reasons axes metrics pose proportions (pyList lcr.2.2)
        .ok ⟨true, some axes, pyStr lcr.1, pyNum lcr.2.1, full_reasons, abstain,
          MODEL_VERSION, pose, proportions, some metrics⟩

/-! ## Helper lemmas -/

lemma composite_nonneg (a : Axes) : 0 ≤ composite a := by
  rw [composite]; exact le_max_left _ _

lemma composite_le_100 (a : Axes) : composite a ≤ 100 := by
  rw [composite]; exact max_le (by norm_num) (min_le_left _ _)

lemma classify_hero_mogged (a : Axes)
    (h1 : 78 ≤ a.sharpness ∧ 54 ≤ a.jawline ∧ 60 ≤ a.pose)
    (h2 : 75 ≤ composite a ∨ (75 ≤ a.sharpness ∧ 72 ≤ a.jawline)) :
    classify_rule_based a =
      ⟨"mogged", min (0.80 + min 0.20 ((composite a - 80) / 20)) 0.96,
        reasonsOf a, tagsOf a, composite a⟩ := by
  unfold classify_rule_based
  rw [if_pos h1, if_pos h2]

lemma classify_hero_sigma (a : Axes)
    (h1 : 78 ≤ a.sharpness ∧ 54 ≤ a.jawline ∧ 60 ≤ a.pose)
    (h2 : ¬(75 ≤ composite a ∨ (75 ≤ a.sharpness ∧ 72 ≤ a.jawline))) :
    classify_rule_based a =
      ⟨"sigma", min (0.70 + min 0.20 (max 0 (composite a - 70) / 20)) 0.90,
        reasonsOf a, tagsOf a, composite a⟩ := by
  unfold classify_rule_based
  rw [if_pos h1, if_neg h2]

lemma classify_trash (a : Axes)
    (h1 : ¬(78 ≤ a.sharpness ∧ 54 ≤ a.jawline ∧ 60 ≤ a.pose))
    (h2 : 2 ≤ veryBadAxes a ∨
      (composite a < 45 ∧ ("very_blurry" ∈ tagsOf a ∨ "dark" ∈ tagsOf a))) :
    classify_rule_based a =
      ⟨"trash", min (0.68 + max 0 (55 - composite a) / 55 * 0.25) 0.96,
        reasonsOf a, tagsOf a, composite a⟩ := by
  unfold classify_rule_based
  rw [if_neg h1, if_pos h2]

lemma classify_meh (a : Axes)
    (h1 : ¬(78 ≤ a.sharpness ∧ 54 ≤ a.jawline ∧ 60 ≤ a.pose))
    (h2 : ¬(2 ≤ veryBadAxes a ∨
      (composite a < 45 ∧ ("very_blurry" ∈ tagsOf a ∨ "dark" ∈ tagsOf a))))
    (h3 : composite a < 50) :
    classify_rule_based a = ⟨"meh", 0.60, reasonsOf a, tagsOf a, composite a⟩ := by
  unfold classify_rule_based
  rw [if_neg h1, if_neg h2, if_pos h3]

lemma classify_average055 (a : Axes)
    (h1 : ¬(78 ≤ a.sharpness ∧ 54 ≤ a.jawline ∧ 60 ≤ a.pose))
    (h2 : ¬(2 ≤ veryBadAxes a ∨
      (composite a < 45 ∧ ("very_blurry" ∈ tagsOf a ∨ "dark" ∈ tagsOf a))))
    (h3 : ¬composite a < 50)
    (h4 : composite a < 62 ∨ minAxis a < 48) :
    classify_rule_based a = ⟨"average", 0.55, reasonsOf a, tagsOf a, composite a⟩ := by
  unfold classify_rule_based
  rw [if_neg h1, if_neg h2, if_neg h3, if_pos h4]

lemma classify_tier_region (a : Axes)
    (h1 : ¬(78 ≤ a.sharpness ∧ 54 ≤ a.jawline ∧ 60 ≤ a.pose))
    (h2 : ¬(2 ≤ veryBadAxes a ∨
      (composite a < 45 ∧ ("very_blurry" ∈ tagsOf a ∨ "dark" ∈ tagsOf a))))
    (h3 : ¬composite a < 50)
    (h4 : ¬(composite a < 62 ∨ minAxis a < 48)) :
    classify_rule_based a =
      (match findTier a (composite a) (minAxis a) TIERS with
       | some nc => ⟨nc.1, nc.2, reasonsOf a, tagsOf a, composite a⟩
       | none =>
         if 62 ≤ composite a ∧ 55 ≤ minAxis a then
           ⟨"average", 0.54, reasonsOf a, tagsOf a, composite a⟩
         else ⟨"meh", 0.56, reasonsOf a, tagsOf a, composite a⟩) := by
  unfold classify_rule_based
  rw [if_neg h1, if_neg h2, if_neg h3, if_neg h4]

lemma baseCap_pos (s : String) : 0 < (baseCap s).1 ∧ 0 < (baseCap s).2 := by
  unfold baseCap
  split_ifs <;> norm_num

lemma findTier_conf_bound (a : Axes) (q m : ℚ) (l : List Tier) (nc : String × ℚ)
    (h : findTier a q m l = some nc) : 0 ≤ nc.2 ∧ nc.2 ≤ 0.98 := by
  induction l with
  | nil => simp [findTier] at h
  | cons t rest ih =>
    rw [findTier] at h
    split_ifs at h with hc
    · obtain rfl : (t.name, min ((baseCap t.name).1 +
          min (baseCap t.name).2 (max 0 (q - t.tmin) / 15)) 0.98) = nc :=
        Option.some.inj h
      refine ⟨le_min ?_ (by norm_num), min_le_right _ _⟩
      have hb := baseCap_pos t.name
      have hm : (0:ℚ) ≤ min (baseCap t.name).2 (max 0 (q - t.tmin) / 15) :=
        le_min (le_of_lt hb.2) (by positivity)
      linarith [hb.1]
    · exact ih h

lemma findTier_TIERS_not_god (a : Axes) (q m : ℚ)
    (h1 : ¬(78 ≤ a.sharpness ∧ 54 ≤ a.jawline ∧ 60 ≤ a.pose))
    (nc : String × ℚ) (h : findTier a q m TIERS = some nc) : nc.1 ≠ "god" := by
  rw [TIERS] at h
  rw [findTier] at h
  split_ifs at h with hg
  · exfalso
    have hk := hg.2.1
    simp [List.all_cons, List.all_nil, axGet] at hk
    exact h1 ⟨by linarith [hk.1], by linarith [hk.2.1], by linarith [hk.2.2]⟩
  · rw [findTier] at h
    split_ifs at h with hm2
    · obtain rfl := Option.some.inj h
      simp
    · rw [findTier] at h
      split_ifs at h with hs2
      · obtain rfl := Option.some.inj h
        simp
      · rw [findTier] at h
        exact absurd h (by simp)

/-- Unpacking a 5-tuple into three names raises. -/
lemma unpack3_of_five (a b c d e : PyObj) :
    unpack3 [a, b, c, d, e] = .error "ValueError: too many values to unpack (expected 3)" :=
  rfl

/-- The analysis pipeline reaches the classifier unpack and raises, for
every detector success with a non-empty crop. -/
lemma analyze_image_unpack_error (H W : ℤ) (m : Quality)
    (gP : List Pt3 → FacePoseQ) (gPr : List Pt3 → FaceProportionsQ)
    (lm : FaceLandmarks) (hcrop : cropEmpty H W lm.face_bbox = false) :
    analyze_image H W m gP gPr (some lm) =
      .error "ValueError: too many values to unpack (expected 3)" := by
  simp only [analyze_image, hcrop, Bool.false_eq_true, if_false, classifyTuple,
    unpack3_of_five]

lemma composite_a50 : composite ⟨50, 50, 50, 50, 50⟩ = 50 := by
  have hs : weightedScore ⟨50, 50, 50, 50, 50⟩ = 50 := by
    simp [weightedScore, weights, List.foldl, axGet]
    norm_num
  have e1 : penaltyStep ⟨50, 50, 50, 50, 50⟩ (0, []) "sharpness" = (0, []) := by
    simp [penaltyStep, axGet]
    norm_num
  have e2 : penaltyStep ⟨50, 50, 50, 50, 50⟩ (0, []) "lighting" = (0, []) := by
    simp [penaltyStep, axGet]
    norm_num
  have e3 : penaltyStep ⟨50, 50, 50, 50, 50⟩ (0, []) "pose" = (0, []) := by
    simp [penaltyStep, axGet]
    norm_num
  have e4 : penaltyStep ⟨50, 50, 50, 50, 50⟩ (0, []) "jawline" = (0, []) := by
    simp [penaltyStep, axGet]
    norm_num
  have e5 : penaltyStep ⟨50, 50, 50, 50, 50⟩ (0, []) "contrast" = (0, []) := by
    simp [penaltyStep, axGet]
    norm_num
  have hp : penaltyTotal ⟨50, 50, 50, 50, 50⟩ = 0 := by
    rw [penaltyTotal, axisKeys, List.foldl_cons, e1, List.foldl_cons, e2,
      List.foldl_cons, e3, List.foldl_cons, e4, List.foldl_cons, e5, List.foldl_nil]
  rw [composite, hs, hp]
  norm_num

lemma composite_aA : composite ⟨90, 70, 70, 80, 70⟩ = 78.2 := by
  have hs : weightedScore ⟨90, 70, 70, 80, 70⟩ = 78.2 := by
    simp [weightedScore, weights, List.foldl, axGet]
    norm_num
  have e1 : penaltyStep ⟨90, 70, 70, 80, 70⟩ (0, []) "sharpness" = (0, []) := by
    simp [penaltyStep, axGet]
    norm_num
  have e2 : penaltyStep ⟨90, 70, 70, 80, 70⟩ (0, []) "lighting" = (0, []) := by
    simp [penaltyStep, axGet]
    norm_num
  have e3 : penaltyStep ⟨90, 70, 70, 80, 70⟩ (0, []) "pose" = (0, []) := by
    simp [penaltyStep, axGet]
    norm_num
  have e4 : penaltyStep ⟨90, 70, 70, 80, 70⟩ (0, []) "jawline" = (0, []) := by
    simp [penaltyStep, axGet]
    norm_num
  have e5 : penaltyStep ⟨90, 70, 70, 80, 70⟩ (0, []) "contrast" = (0, []) := by
    simp [penaltyStep, axGet]
    norm_num
  have hp : penaltyTotal ⟨90, 70, 70, 80, 70⟩ = 0 := by
    rw [penaltyTotal, axisKeys, List.foldl_cons, e1, List.foldl_cons, e2,
      List.foldl_cons, e3, List.foldl_cons, e4, List.foldl_cons, e5, List.foldl_nil]
  rw [composite, hs, hp]
  norm_num

lemma composite_aB : composite ⟨78, 0, 60, 72, 0⟩ = 40.24 := by
  have hs : weightedScore ⟨78, 0, 60, 72, 0⟩ = 51.24 := by
    simp [weightedScore, weights, List.foldl, axGet]
    norm_num
  have e1 : penaltyStep ⟨78, 0, 60, 72, 0⟩ (0, []) "sharpness" = (0, []) := by
    simp [penaltyStep, axGet]
    norm_num
  have e2 : penaltyStep ⟨78, 0, 60, 72, 0⟩ (0, []) "lighting" = (6.3, ["lighting"]) := by
    simp [penaltyStep, axGet]
    norm_num
  have e3 : penaltyStep ⟨78, 0, 60, 72, 0⟩ (6.3, ["lighting"]) "pose" =
      (6.3, ["lighting"]) := by
    simp [penaltyStep, axGet]
    norm_num
  have e4 : penaltyStep ⟨78, 0, 60, 72, 0⟩ (6.3, ["lighting"]) "jawline" =
      (6.3, ["lighting"]) := by
    simp [penaltyStep, axGet]
    norm_num
  have e5 : penaltyStep ⟨78, 0, 60, 72, 0⟩ (6.3, ["lighting"]) "contrast" =
      (11, ["lighting", "contrast"]) := by
    simp [penaltyStep, axGet]
    norm_num
  have hp : penaltyTotal ⟨78, 0, 60, 72, 0⟩ = 11 := by
    rw [penaltyTotal, axisKeys, List.foldl_cons, e1, List.foldl_cons, e2,
      List.foldl_cons, e3, List.foldl_cons, e4, List.foldl_cons, e5, List.foldl_nil]
  rw [composite, hs, hp]
  norm_num

lemma composite_aD : composite ⟨0, 40, 50, 50, 50⟩ = 24.9 := by
  have hs : weightedScore ⟨0, 40, 50, 50, 50⟩ = 33.2 := by
    simp [weightedScore, weights, List.foldl, axGet]
    norm_num
  have e1 : penaltyStep ⟨0, 40, 50, 50, 50⟩ (0, []) "sharpness" = (8, ["sharpness"]) := by
    simp [penaltyStep, axGet]
    norm_num
  have e2 : penaltyStep ⟨0, 40, 50, 50, 50⟩ (8, ["sharpness"]) "lighting" =
      (8.3, ["sharpness", "lighting"]) := by
    simp [penaltyStep, axGet]
    norm_num
  have e3 : penaltyStep ⟨0, 40, 50, 50, 50⟩ (8.3, ["sharpness", "lighting"]) "pose" =
      (8.3, ["sharpness", "lighting"]) := by
    simp [penaltyStep, axGet]
    norm_num
  have e4 : penaltyStep ⟨0, 40, 50, 50, 50⟩ (8.3, ["sharpness", "lighting"]) "jawline" =
      (8.3, ["sharpness", "lighting"]) := by
    simp [penaltyStep, axGet]
    norm_num
  have e5 : penaltyStep ⟨0, 40, 50, 50, 50⟩ (8.3, ["sharpness", "lighting"]) "contrast" =
      (8.3, ["sharpness", "lighting"]) := by
    simp [penaltyStep, axGet]
    norm_num
  have hp : penaltyTotal ⟨0, 40, 50, 50, 50⟩ = 8.3 := by
    rw [penaltyTotal, axisKeys, List.foldl_cons, e1, List.foldl_cons, e2,
      List.foldl_cons, e3, List.foldl_cons, e4, List.foldl_cons, e5, List.foldl_nil]
  rw [composite, hs, hp]
  norm_num

lemma singleFinalCap_aD : compositeSingleFinalCap ⟨0, 40, 50, 50, 50⟩ = 23.45 := by
  have hs : weightedScore ⟨0, 40, 50, 50, 50⟩ = 33.2 := by
    simp [weightedScore, weights, List.foldl, axGet]
    norm_num
  have e1 : penaltyStepNoCap ⟨0, 40, 50, 50, 50⟩ (0, []) "sharpness" =
      (9.45, ["sharpness"]) := by
    simp [penaltyStepNoCap, axGet]
    norm_num
  have e2 : penaltyStepNoCap ⟨0, 40, 50, 50, 50⟩ (9.45, ["sharpness"]) "lighting" =
      (9.75, ["sharpness", "lighting"]) := by
    simp [penaltyStepNoCap, axGet]
    norm_num
  have e3 : penaltyStepNoCap ⟨0, 40, 50, 50, 50⟩ (9.75, ["sharpness", "lighting"]) "pose" =
      (9.75, ["sharpness", "lighting"]) := by
    simp [penaltyStepNoCap, axGet]
    norm_num
  have e4 : penaltyStepNoCap ⟨0, 40, 50, 50, 50⟩ (9.75, ["sharpness", "lighting"])
      "jawline" = (9.75, ["sharpness", "lighting"]) := by
    simp [penaltyStepNoCap, axGet]
    norm_num
  have e5 : penaltyStepNoCap ⟨0, 40, 50, 50, 50⟩ (9.75, ["sharpness", "lighting"])
      "contrast" = (9.75, ["sharpness", "lighting"]) := by
    simp [penaltyStepNoCap, axGet]
    norm_num
  have hp : penaltyStateNoCap ⟨0, 40, 50, 50, 50⟩ = (9.75, ["sharpness", "lighting"]) := by
    rw [penaltyStateNoCap, axisKeys, List.foldl_cons, e1, List.foldl_cons, e2,
      List.foldl_cons, e3, List.foldl_cons, e4, List.foldl_cons, e5, List.foldl_nil]
  rw [compositeSingleFinalCap, hs, hp]
  norm_num

/-! ## Theorems -/

/-- C9: for all five axes equal to 50, no penalty applies and the
composite equals 50; the hero and trash overrides do not fire, the
`meh` branch is skipped because 50 is not strictly below 50, and the
`composite < 62` branch yields label "average" with confidence
exactly 0.55. -/
theorem scenarioC_all_axes_50_average :
    (classify_rule_based ⟨50, 50, 50, 50, 50⟩).label = "average" ∧
    (classify_rule_based ⟨50, 50, 50, 50, 50⟩).conf = 0.55 ∧
    (classify_rule_based ⟨50, 50, 50, 50, 50⟩).quality = 50 := by
  have hvb : veryBadAxes ⟨50, 50, 50, 50, 50⟩ = 0 := by decide
  rw [classify_average055 ⟨50, 50, 50, 50, 50⟩ (by norm_num)
    (by rw [hvb, composite_a50]; norm_num)
    (by rw [composite_a50]; norm_num)
    (Or.inl (by rw [composite_a50]; norm_num))]
  exact ⟨rfl, rfl, composite_a50⟩

/-- C4, counterexample: for axes {sharpness 90, lighting 70, pose 70,
jawline 80, contrast 70} the composite is 78.2 and the hero override
yields "mogged", but the returned confidence is
`min(0.96, 0.80 + (78.2 - 80)/20) = 0.71`, not 0.80 as claimed. -/
theorem scenarioA_conf_is_not_080 :
    (classify_rule_based ⟨90, 70, 70, 80, 70⟩).label = "mogged" ∧
    (classify_rule_based ⟨90, 70, 70, 80, 70⟩).quality = 78.2 ∧
    (classify_rule_based ⟨90, 70, 70, 80, 70⟩).conf ≠ 0.80 := by
  rw [classify_hero_mogged ⟨90, 70, 70, 80, 70⟩ (by norm_num)
    (Or.inl (by rw [composite_aA]; norm_num))]
  refine ⟨rfl, composite_aA, ?_⟩
  rw [show (⟨"mogged", min (0.80 + min 0.20 ((composite ⟨90, 70, 70, 80, 70⟩ - 80) / 20))
      0.96, reasonsOf _, tagsOf _, composite _⟩ : ClassifyResult).conf =
    min (0.80 + min 0.20 ((composite ⟨90, 70, 70, 80, 70⟩ - 80) / 20)) 0.96 from rfl,
    composite_aA]
  norm_num [min_def]

/-- C4, amended: for axes {sharpness 90, lighting 70, pose 70,
jawline 80, contrast 70}, no penalty applies, the composite equals 78.2,
the hero override yields label "mogged", and the returned confidence
equals exactly 0.71. -/
theorem scenarioA_mogged_conf_071 :
    (classify_rule_based ⟨90, 70, 70, 80, 70⟩).label = "mogged" ∧
    (classify_rule_based ⟨90, 70, 70, 80, 70⟩).quality = 78.2 ∧
    (classify_rule_based ⟨90, 70, 70, 80, 70⟩).conf = 0.71 := by
  rw [classify_hero_mogged ⟨90, 70, 70, 80, 70⟩ (by norm_num)
    (Or.inl (by rw [composite_aA]; norm_num))]
  refine ⟨rfl, composite_aA, ?_⟩
  rw [show (⟨"mogged", min (0.80 + min 0.20 ((composite ⟨90, 70, 70, 80, 70⟩ - 80) / 20))
      0.96, reasonsOf _, tagsOf _, composite _⟩ : ClassifyResult).conf =
    min (0.80 + min 0.20 ((composite ⟨90, 70, 70, 80, 70⟩ - 80) / 20)) 0.96 from rfl,
    composite_aA]
  norm_num [min_def]

/-- C2, counterexample: for axes {sharpness 78, lighting 0, pose 60,
jawline 72, contrast 0} the hero override returns "mogged" with
composite 40.24 and confidence `0.80 + (40.24 - 80)/20 = -1.188 < 0`,
so the confidence does not lie in [0,1] on every branch. -/
theorem hero_mogged_conf_negative :
    (classify_rule_based ⟨78, 0, 60, 72, 0⟩).label = "mogged" ∧
    (classify_rule_based ⟨78, 0, 60, 72, 0⟩).conf < 0 := by
  rw [classify_hero_mogged ⟨78, 0, 60, 72, 0⟩ (by norm_num)
    (Or.inr (by norm_num))]
  refine ⟨rfl, ?_⟩
  rw [show (⟨"mogged", min (0.80 + min 0.20 ((composite ⟨78, 0, 60, 72, 0⟩ - 80) / 20))
      0.96, reasonsOf _, tagsOf _, composite _⟩ : ClassifyResult).conf =
    min (0.80 + min 0.20 ((composite ⟨78, 0, 60, 72, 0⟩ - 80) / 20)) 0.96 from rfl,
    composite_aB]
  norm_num [min_def]

/-- C6: at axes {sharpness 0, lighting 40, pose 50, jawline 50,
contrast 50} the implemented composite (penalty cap re-applied to the
running total after each axis) yields 24.9, while the single-final-cap
formulation yields 23.45: the two formulations are not equivalent, and
the implementation follows the incremental one. -/
theorem incremental_cap_differs_from_single_final_cap :
    composite ⟨0, 40, 50, 50, 50⟩ = 24.9 ∧
    compositeSingleFinalCap ⟨0, 40, 50, 50, 50⟩ = 23.45 ∧
    composite ⟨0, 40, 50, 50, 50⟩ ≠ compositeSingleFinalCap ⟨0, 40, 50, 50, 50⟩ := by
  refine ⟨composite_aD, singleFinalCap_aD, ?_⟩
  rw [composite_aD, singleFinalCap_aD]
  norm_num

/-- C3: `classify_rule_based` never returns the label "god": the god
tier's per-axis floors imply the hero-override precondition, the hero
override is checked first and returns "mogged" or "sigma", so the god
branch of the tier loop is unreachable. -/
theorem classify_never_god (a : Axes) : (classify_rule_based a).label ≠ "god" := by
  by_cases h1 : 78 ≤ a.sharpness ∧ 54 ≤ a.jawline ∧ 60 ≤ a.pose
  · by_cases h2 : 75 ≤ composite a ∨ (75 ≤ a.sharpness ∧ 72 ≤ a.jawline)
    · rw [classify_hero_mogged a h1 h2]; simp
    · rw [classify_hero_sigma a h1 h2]; simp
  · by_cases h2 : 2 ≤ veryBadAxes a ∨
        (composite a < 45 ∧ ("very_blurry" ∈ tagsOf a ∨ "dark" ∈ tagsOf a))
    · rw [classify_trash a h1 h2]; simp
    · by_cases h3 : composite a < 50
      · rw [classify_meh a h1 h2 h3]; simp
      · by_cases h4 : composite a < 62 ∨ minAxis a < 48
        · rw [classify_average055 a h1 h2 h3 h4]; simp
        · rw [classify_tier_region a h1 h2 h3 h4]
          rcases hft : findTier a (composite a) (minAxis a) TIERS with _ | nc
          · simp only [hft]
            split_ifs <;> simp
          · simp only [hft]
            exact findTier_TIERS_not_god a _ _ h1 nc hft

/-- C2, amended: for every axes input the confidence returned by
`classify_rule_based` is at most 0.98, and it is nonnegative on every
branch except the hero-override "mogged" branch, where
`min(0.96, 0.80 + (composite - 80)/20)` can fall below 0 when the
composite is below 64; at each tier's boundary (composite equal to the
tier minimum) the confidence equals the tier base and lies in [0,1]. -/
theorem classify_conf_bounds (a : Axes) :
    (classify_rule_based a).conf ≤ 0.98 ∧
      (0 ≤ (classify_rule_based a).conf ∨
        ((classify_rule_based a).label = "mogged" ∧ (classify_rule_based a).quality < 64)) := by
  by_cases h1 : 78 ≤ a.sharpness ∧ 54 ≤ a.jawline ∧ 60 ≤ a.pose
  · by_cases h2 : 75 ≤ composite a ∨ (75 ≤ a.sharpness ∧ 72 ≤ a.jawline)
    · rw [classify_hero_mogged a h1 h2]
      refine ⟨le_trans (min_le_right _ _) (by norm_num), ?_⟩
      rcases lt_or_le (composite a) 64 with h | h
      · exact Or.inr ⟨rfl, h⟩
      · refine Or.inl (le_min ?_ (by norm_num))
        have hmin : (-0.8 : ℚ) ≤ min 0.20 ((composite a - 80) / 20) :=
          le_min (by norm_num) (by linarith)
        linarith
    · rw [classify_hero_sigma a h1 h2]
      refine ⟨le_trans (min_le_right _ _) (by norm_num), Or.inl (le_min ?_ (by norm_num))⟩
      have hmin : (0 : ℚ) ≤ min 0.20 (max 0 (composite a - 70) / 20) :=
        le_min (by norm_num) (by positivity)
      linarith
  · by_cases h2 : 2 ≤ veryBadAxes a ∨
        (composite a < 45 ∧ ("very_blurry" ∈ tagsOf a ∨ "dark" ∈ tagsOf a))
    · rw [classify_trash a h1 h2]
      refine ⟨le_trans (min_le_right _ _) (by norm_num), Or.inl (le_min ?_ (by norm_num))⟩
      have hmax : (0 : ℚ) ≤ max 0 (55 - composite a) / 55 * 0.25 := by positivity
      linarith
    · by_cases h3 : composite a < 50
      · rw [classify_meh a h1 h2 h3]
        exact ⟨by norm_num, Or.inl (by norm_num)⟩
      · by_cases h4 : composite a < 62 ∨ minAxis a < 48
        · rw [classify_average055 a h1 h2 h3 h4]
          exact ⟨by norm_num, Or.inl (by norm_num)⟩
        · rw [classify_tier_region a h1 h2 h3 h4]
          rcases hft : findTier a (composite a) (minAxis a) TIERS with _ | nc
          · simp only [hft]
            split_ifs <;> exact ⟨by norm_num, Or.inl (by norm_num)⟩
          · simp only [hft]
            obtain ⟨hl, hu⟩ := findTier_conf_bound a _ _ TIERS nc hft
            exact ⟨hu, Or.inl hl⟩

/-- C7: the abstention check returns true if and only if the detector
confidence is below 0.3, or the pose is present with |yaw| > 45 or
|pitch| > 45, or the mean of the five axes is below 20; in particular
detector confidence below 0.3 forces abstention. -/
theorem should_abstain_iff (a : Axes) (conf : ℚ) (pose : Option FacePoseQ) :
    should_abstain a conf pose = true ↔
      (conf < 0.3 ∨
        (∃ p, pose = some p ∧ (45 < |p.yaw| ∨ 45 < |p.pitch|)) ∨
        (a.sharpness + a.lighting + a.pose + a.jawline + a.contrast) / 5 < 20) := by
  cases pose with
  | none =>
    simp only [should_abstain, Option.any]
    split_ifs with hc hm <;> simp_all
  | some p =>
    simp only [should_abstain, Option.any, decide_eq_true_eq]
    split_ifs with hc hp hm <;> simp_all

/-- C8: for nonnegative Laplacian variance, Tenengrad, frequency ratio
(in [0,1]) and RMS contrast, the sharpness and contrast axes of the
axis aggregator lie in [0,100]; and for every axes input the composite
lies in [0,100]. -/
theorem axes_and_composite_bounds (q : Quality) (pose : Option FacePoseQ)
    (props : Option FaceProportionsQ) (lm : FaceLandmarks)
    (h1 : 0 ≤ q.sharpness_laplacian) (h2 : 0 ≤ q.sharpness_tenengrad)
    (h3 : 0 ≤ q.sharpness_fft) (h4 : q.sharpness_fft ≤ 1) (h5 : 0 ≤ q.contrast_rms) :
    (0 ≤ (calculate_axes q pose props lm).sharpness ∧
      (calculate_axes q pose props lm).sharpness ≤ 100) ∧
    (0 ≤ (calculate_axes q pose props lm).contrast ∧
      (calculate_axes q pose props lm).contrast ≤ 100) ∧
    (∀ a : Axes, 0 ≤ composite a ∧ composite a ≤ 100) := by
  refine ⟨⟨?_, ?_⟩, ⟨?_, ?_⟩, fun a => ⟨composite_nonneg a, composite_le_100 a⟩⟩ <;>
    simp only [calculate_axes]
  · refine le_min (by norm_num) ?_
    have t1 : 0 ≤ q.sharpness_laplacian / 1000 * 50 :=
      mul_nonneg (div_nonneg h1 (by norm_num)) (by norm_num)
    have t2 : 0 ≤ q.sharpness_tenengrad / 100000 * 30 :=
      mul_nonneg (div_nonneg h2 (by norm_num)) (by norm_num)
    have t3 : 0 ≤ q.sharpness_fft * 20 := mul_nonneg h3 (by norm_num)
    linarith
  · exact min_le_left _ _
  · exact le_min (by norm_num) (mul_nonneg h5 (by norm_num))
  · exact min_le_left _ _

/-- C8, witness: the bounds instantiated at a concrete quality report. -/
theorem axes_and_composite_bounds_witness :
    (0 ≤ (calculate_axes ⟨0, 0, 0, 0, ⟨50, 128, 0, 0, 0⟩, 0, 50⟩ none none
        ⟨(0, 0, 10, 10), none, 1⟩).sharpness ∧
      (calculate_axes ⟨0, 0, 0, 0, ⟨50, 128, 0, 0, 0⟩, 0, 50⟩ none none
        ⟨(0, 0, 10, 10), none, 1⟩).sharpness ≤ 100) ∧
    (0 ≤ (calculate_axes ⟨0, 0, 0, 0, ⟨50, 128, 0, 0, 0⟩, 0, 50⟩ none none
        ⟨(0, 0, 10, 10), none, 1⟩).contrast ∧
      (calculate_axes ⟨0, 0, 0, 0, ⟨50, 128, 0, 0, 0⟩, 0, 50⟩ none none
        ⟨(0, 0, 10, 10), none, 1⟩).contrast ≤ 100) ∧
    (∀ a : Axes, 0 ≤ composite a ∧ composite a ≤ 100) :=
  axes_and_composite_bounds ⟨0, 0, 0, 0, ⟨50, 128, 0, 0, 0⟩, 0, 50⟩ none none
    ⟨(0, 0, 10, 10), none, 1⟩ (le_refl 0) (le_refl 0) (le_refl 0) zero_le_one (le_refl 0)

/-- C1: the claim says the core never raises once a face is detected
and the crop is non-empty; in fact, for every such input the
orchestrator's three-name unpacking of the classifier's 5-tuple raises
`ValueError`, so `analyze_image` never returns an `AnalysisResult`
on the success path. -/
theorem analyze_image_raises_at_classifier_unpack (H W : ℤ) (m : Quality)
    (gP : List Pt3 → FacePoseQ) (gPr : List Pt3 → FaceProportionsQ)
    (lm : FaceLandmarks) (hcrop : cropEmpty H W lm.face_bbox = false) :
    analyze_image H W m gP gPr (some lm) =
      .error "ValueError: too many values to unpack (expected 3)" :=
  analyze_image_unpack_error H W m gP gPr lm hcrop

/-- C1, witness: the raise observed at a concrete detected face with a
non-empty crop. -/
theorem analyze_image_raises_witness :
    cropEmpty 100 100 ((0 : ℤ), (0 : ℤ), (10 : ℤ), (10 : ℤ)) = false ∧
      analyze_image 100 100 ⟨0, 0, 0, 0, ⟨50, 128, 0, 0, 0⟩, 0, 50⟩
        (fun _ => ⟨0, 0, 0⟩) (fun _ => ⟨90, 0, 0, 0, 0, 0⟩)
        (some ⟨((0 : ℤ), (0 : ℤ), (10 : ℤ), (10 : ℤ)), none, 1⟩) =
      .error "ValueError: too many values to unpack (expected 3)" :=
  ⟨rfl, analyze_image_raises_at_classifier_unpack 100 100
    ⟨0, 0, 0, 0, ⟨50, 128, 0, 0, 0⟩, 0, 50⟩ (fun _ => ⟨0, 0, 0⟩)
    (fun _ => ⟨90, 0, 0, 0, 0, 0⟩) ⟨((0 : ℤ), (0 : ℤ), (10 : ℤ), (10 : ℤ)), none, 1⟩ rfl⟩

/-- C10: when the dense mesh is absent the axis aggregator sets the pose
and jawline axes to exactly 50.0; however, the pipeline then raises at
the classifier unpack before any `AnalysisResult` (whose pose and
proportions fields would be `None`) is constructed. -/
theorem mesh_absent_axes_default_and_raise (H W : ℤ) (m : Quality)
    (gP : List Pt3 → FacePoseQ) (gPr : List Pt3 → FaceProportionsQ)
    (lm : FaceLandmarks) (hmesh : lm.landmarks_468 = none)
    (hcrop : cropEmpty H W lm.face_bbox = false) :
    (calculate_axes m (lm.landmarks_468.map gP) (lm.landmarks_468.map gPr) lm).pose = 50 ∧
    (calculate_axes m (lm.landmarks_468.map gP) (lm.landmarks_468.map gPr) lm).jawline = 50 ∧
    analyze_image H W m gP gPr (some lm) =
      .error "ValueError: too many values to unpack (expected 3)" := by
  refine ⟨?_, ?_, analyze_image_unpack_error H W m gP gPr lm hcrop⟩ <;>
    rw [hmesh] <;> simp [calculate_axes]

/-- C10, witness: the mesh-absent defaults and the raise at a concrete
input. -/
theorem mesh_absent_witness :
    (calculate_axes ⟨0, 0, 0, 0, ⟨50, 128, 0, 0, 0⟩, 0, 50⟩
        ((⟨((0 : ℤ), (0 : ℤ), (10 : ℤ), (10 : ℤ)), none, 1⟩ : FaceLandmarks).landmarks_468.map
          (fun _ => ⟨0, 0, 0⟩))
        ((⟨((0 : ℤ), (0 : ℤ), (10 : ℤ), (10 : ℤ)), none, 1⟩ : FaceLandmarks).landmarks_468.map
          (fun _ => ⟨90, 0, 0, 0, 0, 0⟩))
        ⟨((0 : ℤ), (0 : ℤ), (10 : ℤ), (10 : ℤ)), none, 1⟩).pose = 50 ∧
    (calculate_axes ⟨0, 0, 0, 0, ⟨50, 128, 0, 0, 0⟩, 0, 50⟩
        ((⟨((0 : ℤ), (0 : ℤ), (10 : ℤ), (10 : ℤ)), none, 1⟩ : FaceLandmarks).landmarks_468.map
          (fun _ => ⟨0, 0, 0⟩))
        ((⟨((0 : ℤ), (0 : ℤ), (10 : ℤ), (10 : ℤ)), none, 1⟩ : FaceLandmarks).landmarks_468.map
          (fun _ => ⟨90, 0, 0, 0, 0, 0⟩))
        ⟨((0 : ℤ), (0 : ℤ), (10 : ℤ), (10 : ℤ)), none, 1⟩).jawline = 50 ∧
    analyze_image 100 100 ⟨0, 0, 0, 0, ⟨50, 128, 0, 0, 0⟩, 0, 50⟩
        (fun _ => ⟨0, 0, 0⟩) (fun _ => ⟨90, 0, 0, 0, 0, 0⟩)
        (some ⟨((0 : ℤ), (0 : ℤ), (10 : ℤ), (10 : ℤ)), none, 1⟩) =
      .error "ValueError: too many values to unpack (expected 3)" :=
  mesh_absent_axes_default_and_raise 100 100 ⟨0, 0, 0, 0, ⟨50, 128, 0, 0, 0⟩, 0, 50⟩
    (fun _ => ⟨0, 0, 0⟩) (fun _ => ⟨90, 0, 0, 0, 0, 0⟩)
    ⟨((0 : ℤ), (0 : ℤ), (10 : ℤ), (10 : ℤ)), none, 1⟩ rfl rfl

set_option maxRecDepth 8000 in
/-- C5, counterexample: for a 468-point landmark array whose chin point
coincides with a jaw-corner point, `calculate_jaw_angle` divides 0 by 0
producing NaN, which clip and arccos propagate: the function has no
division-by-zero guard and does not return a defined real number. -/
theorem jaw_angle_nan_on_coincident_points :
    calculate_jaw_angle (List.replicate 468 ((5 : ℚ), 7, 0)) = JawResult.nan := by
  have hlen : ¬ (List.replicate 468 (((5 : ℚ), 7, 0) : Pt3)).length < 468 := by simp
  have h1 : jawVec1 (List.replicate 468 ((5 : ℚ), 7, 0)) = (0, 0) := by
    simp [jawVec1, LEFT_JAW, CHIN, List.getD_eq_getElem?_getD, List.getElem?_replicate]
  have h2 : jawVec2 (List.replicate 468 ((5 : ℚ), 7, 0)) = (0, 0) := by
    simp [jawVec2, RIGHT_JAW, CHIN, List.getD_eq_getElem?_getD, List.getElem?_replicate]
  rw [calculate_jaw_angle, if_neg hlen, h1, h2]
  norm_num [divClipArccosDeg, dot2, normSq]

/-- C5, amended: `calculate_jaw_angle` clamps the arccos argument to
[-1,1] but has no division-by-zero guard; it returns a defined angle in
[0,180] degrees whenever both chin-to-jaw vectors are nonzero, and NaN
when the chin coincides with a jaw corner. -/
theorem jaw_angle_defined_of_nonzero_vectors (lmk : List Pt3) (hlen : ¬ lmk.length < 468)
    (hv1 : normSq (jawVec1 lmk) ≠ 0) (hv2 : normSq (jawVec2 lmk) ≠ 0) :
    ∃ x : ℝ, calculate_jaw_angle lmk = .val x ∧ 0 ≤ x ∧ x ≤ 180 := by
  rw [calculate_jaw_angle, if_neg hlen]
  unfold divClipArccosDeg
  have hden : normSq (jawVec1 lmk) * normSq (jawVec2 lmk) ≠ 0 := mul_ne_zero hv1 hv2
  rw [if_neg hden]
  refine ⟨_, rfl, ?_, ?_⟩
  · exact div_nonneg (mul_nonneg (Real.arccos_nonneg _) (by norm_num))
      (le_of_lt Real.pi_pos)
  · have h := Real.arccos_le_pi
      (max (-1) (min 1 ((dot2 (jawVec1 lmk) (jawVec2 lmk) : ℝ) /
        Real.sqrt ((normSq (jawVec1 lmk) * normSq (jawVec2 lmk) : ℚ) : ℝ))))
    calc Real.arccos _ * 180 / Real.pi ≤ Real.pi * 180 / Real.pi := by gcongr
    _ = 180 := by field_simp

set_option maxRecDepth 8000 in
/-- C5, witness: a 468-point landmark array with distinct chin and jaw
corners yields a defined jaw angle. -/
theorem jaw_angle_defined_witness :
    ∃ x : ℝ, calculate_jaw_angle
        (List.replicate 153 ((0 : ℚ), 0, 0) ++ List.replicate 315 ((1 : ℚ), 0, 0)) = .val x ∧
      0 ≤ x ∧ x ≤ 180 :=
  jaw_angle_defined_of_nonzero_vectors _ (by simp)
    (by simp [jawVec1, normSq, CHIN, LEFT_JAW, List.getD_eq_getElem?_getD,
      List.getElem?_append_right, List.getElem?_append, List.getElem?_replicate])
    (by simp [jawVec2, normSq, CHIN, RIGHT_JAW, List.getD_eq_getElem?_getD,
      List.getElem?_append_right, List.getElem?_append, List.getElem?_replicate])

end FaceShark
